import Mathlib

/-!
Verification development for the interaxtion ARIA pattern analyzer.

The document tree is modelled as a rose tree of elements (`Elem`); a node of
the host tree is identified by the path (`NodePath`, list of child indices)
from the document root to it, which gives DOM node identity, containment
(`List.isPrefixOf`) and document (pre-)order.  Each `Elem` carries its tag
name, its attribute list, its direct text content and its children; the
`textContent` of a node is the concatenation of the direct text of its
subtree in document order.

The definitions follow the TypeScript sources:
`src/common/aria.ts`, `src/common/dom.ts`, `src/patterns/dialog/detector.ts`,
`src/patterns/dialog/validator.ts`, `src/core/analyzer.ts`,
`src/runner/browser.ts` and `src/runner/node.ts`.
-/

set_option linter.unusedVariables false

/-- Model of a DOM element: tag name, attributes, direct text, children. -/
inductive Elem where
  | mk (tag : String) (attrs : List (String × String)) (text : String) (children : List Elem)

/-- A node is identified by the list of child indices from the root. -/
abbrev NodePath := List Nat

def Elem.tag : Elem → String
  | .mk t _ _ _ => t

def Elem.attrs : Elem → List (String × String)
  | .mk _ a _ _ => a

def Elem.text : Elem → String
  | .mk _ _ s _ => s

def Elem.children : Elem → List Elem
  | .mk _ _ _ cs => cs

/-- DOM `getAttribute`: the value of the first binding of the name, else null. -/
def Elem.getAttribute (e : Elem) (name : String) : Option String :=
  (e.attrs.find? (fun kv => kv.1 == name)).map (·.2)

/-- DOM `hasAttribute`. -/
def Elem.hasAttribute (e : Elem) (name : String) : Bool :=
  (e.getAttribute name).isSome

/-- DOM `className` property (the `class` attribute, `""` if absent). -/
def Elem.className (e : Elem) : String :=
  (e.getAttribute "class").getD ""

/-- DOM `id` property (the `id` attribute, `""` if absent). -/
def Elem.idAttr (e : Elem) : String :=
  (e.getAttribute "id").getD ""

mutual

/-- All nodes of the subtree rooted at `e`, paired with their path relative
to `e`, in document (pre-)order; the first entry is `e` itself. -/
def subNodes : Elem → List (NodePath × Elem)
  | .mk t a s cs => ([], .mk t a s cs) :: subNodesAux 0 cs

/-- Subtrees of the children starting at child index `i`, in document order. -/
def subNodesAux : Nat → List Elem → List (NodePath × Elem)
  | _, [] => []
  | i, c :: cs => (subNodes c).map (fun q => (i :: q.1, q.2)) ++ subNodesAux (i + 1) cs

end

/-- Node lookup by path. -/
def nodeAt : Elem → NodePath → Option Elem
  | e, [] => some e
  | e, i :: p =>
    match e.children.get? i with
    | some c => nodeAt c p
    | none => none

/-- Node lookup by path with a dummy element for invalid paths (the engine
only ever produces valid paths). -/
def elemAt (root : Elem) (p : NodePath) : Elem :=
  (nodeAt root p).getD (.mk "" [] "" [])

/-- DOM `textContent`: all text of the subtree in document order. -/
def textContent (e : Elem) : String :=
  String.join ((subNodes e).map (fun q => q.2.text))

/-- All nodes of the document, paired with their absolute path, in document
order (`document.querySelectorAll` searches this list). -/
def docPairs (root : Elem) : List (NodePath × Elem) :=
  subNodes root

/-- Proper descendants of the node at `p`, with absolute paths, in document
order (`element.querySelectorAll` searches this list). -/
def descendantPairs (root : Elem) (p : NodePath) : List (NodePath × Elem) :=
  match nodeAt root p with
  | some e => ((subNodes e).drop 1).map (fun q => (p ++ q.1, q.2))
  | none => []

/-- JavaScript `String.prototype.includes` on character lists. -/
def charsContain (pat : List Char) : List Char → Bool
  | [] => pat.isEmpty
  | c :: t => pat.isPrefixOf (c :: t) || charsContain pat t

/-- JavaScript `s.includes(pat)`. -/
def strIncludes (s pat : String) : Bool :=
  charsContain pat.data s.data

/-- JavaScript `toLowerCase` (structural implementation, so that concrete
runs reduce in the kernel). -/
def lowerStr (s : String) : String :=
  String.mk (s.data.map Char.toLower)

/-- JavaScript `trim` (structural implementation). -/
def trimStr (s : String) : String :=
  String.mk (((s.data.dropWhile Char.isWhitespace).reverse.dropWhile
    Char.isWhitespace).reverse)

/-- Splitting a character list at every separator character (the semantics of
`String.split`, structural implementation). -/
def splitChars (p : Char → Bool) : List Char → List (List Char)
  | [] => [[]]
  | c :: t =>
    if p c then [] :: splitChars p t
    else
      match splitChars p t with
      | [] => [[c]]
      | h :: r => (c :: h) :: r

/-- Splitting a string at a one-character separator (the `splitOn` calls of
the source all use the one-character separators `";"` and `":"`). -/
def splitOnChar (s : String) (sep : Char) : List String :=
  (splitChars (fun c => c == sep) s.data).map String.mk

/-- JavaScript `s.split(/\s+/)` on an already trimmed string (empty chunks
do not occur for trimmed non-empty input; for `""` both yield no usable id). -/
def splitWhitespace (s : String) : List String :=
  ((splitChars (fun c => c.isWhitespace) s.data).map String.mk).filter (fun t => t != "")

/-- DOM `getElementById`: the first element in document order whose `id`
attribute equals `id`; the empty string never matches. -/
def getElementById (root : Elem) (id : String) : Option (NodePath × Elem) :=
  if id == "" then none
  else (docPairs root).find? (fun q => q.2.getAttribute "id" == some id)

/-- The paths of the node at `p` and of all its ancestors, innermost first
(the search order of DOM `closest`). -/
def selfAndAncestorPaths (p : NodePath) : List NodePath :=
  ((List.range (p.length + 1)).reverse).map (fun n => p.take n)

/-- DOM `closest` restricted to a tag-name selector: the nearest
self-or-ancestor with the given tag. -/
def closestByTag (root : Elem) (p : NodePath) (t : String) : Option (NodePath × Elem) :=
  (selfAndAncestorPaths p).findSome? (fun q =>
    match nodeAt root q with
    | some e => if e.tag == t then some (q, e) else none
    | none => none)

/-- Translation of `findLabelElement` (src/common/aria.ts): aria-labelledby
reference (whole value as one id, dangling reference returns null), else
`label[for=id]`, else the closest `label` ancestor. -/
def findLabelElement (root : Elem) (p : NodePath) : Option (NodePath × Elem) :=
  let e := elemAt root p
  let labelledBy := (e.getAttribute "aria-labelledby").getD ""
  if labelledBy != "" then
    getElementById root labelledBy
  else
    let id := e.idAttr
    let byFor :=
      if id != "" then
        (docPairs root).find? (fun q =>
          q.2.tag == "label" && q.2.getAttribute "for" == some id)
      else none
    match byFor with
    | some q => some q
    | none => closestByTag root p "label"

/-- Translation of `getAccessibleName` (src/common/aria.ts): the simplified
accessible-name computation, steps 1-7 with first applicable step winning. -/
def getAccessibleName (root : Elem) (p : NodePath) : String :=
  let e := elemAt root p
  let tagName := lowerStr e.tag
  let step1 : Option String :=
    let labelledBy := (e.getAttribute "aria-labelledby").getD ""
    if labelledBy != "" then
      let ids := splitWhitespace (trimStr labelledBy)
      let texts := (ids.map (fun id =>
        match getElementById root id with
        | some q => trimStr (textContent q.2)
        | none => "")).filter (fun t => t != "")
      if texts.length > 0 then some (String.intercalate " " texts) else none
    else none
  let step2 : Option String :=
    let ariaLabel := (e.getAttribute "aria-label").getD ""
    if trimStr ariaLabel != "" then some (trimStr ariaLabel) else none
  let step3 : Option String :=
    if ["input", "textarea", "select"].contains tagName then
      match findLabelElement root p with
      | some q => if trimStr (textContent q.2) != "" then some (trimStr (textContent q.2)) else none
      | none => none
    else none
  let step4 : Option String :=
    if tagName == "img" then
      match e.getAttribute "alt" with
      | some alt => some (trimStr alt)
      | none => none
    else none
  let step5 : Option String :=
    let title := (e.getAttribute "title").getD ""
    if trimStr title != "" then some (trimStr title) else none
  let step6 : Option String :=
    if ["button", "a"].contains tagName then
      if trimStr (textContent e) != "" then some (trimStr (textContent e)) else none
    else none
  let step7 : Option String :=
    if ["input", "textarea"].contains tagName then
      let placeholder := (e.getAttribute "placeholder").getD ""
      if trimStr placeholder != "" then some (trimStr placeholder) else none
    else none
  (((((((step1.orElse fun _ => step2).orElse fun _ => step3).orElse
    fun _ => step4).orElse fun _ => step5).orElse fun _ => step6).orElse
    fun _ => step7)).getD ""

/-- Translation of `hasAccessibleName` (src/common/aria.ts). -/
def hasAccessibleName (root : Elem) (p : NodePath) : Bool :=
  (getAccessibleName root p).length > 0

/-- Role table for `input` elements by their `type` (src/common/aria.ts),
with `textbox` as the fallback. -/
def inputTypeRole (t : String) : String :=
  match t with
  | "button" => "button"
  | "checkbox" => "checkbox"
  | "email" => "textbox"
  | "number" => "spinbutton"
  | "radio" => "radio"
  | "range" => "slider"
  | "reset" => "button"
  | "search" => "searchbox"
  | "submit" => "button"
  | "tel" => "textbox"
  | "text" => "textbox"
  | "url" => "textbox"
  | _ => "textbox"

/-- Translation of `getRole` (src/common/aria.ts): the first token of an
explicit `role` attribute, else the implicit role of the tag. -/
def getRole (root : Elem) (p : NodePath) : Option String :=
  let e := elemAt root p
  let explicitRole := (e.getAttribute "role").getD ""
  if explicitRole != "" then
    some ((splitWhitespace (trimStr explicitRole)).headD "")
  else
    match lowerStr e.tag with
    | "a" => if e.hasAttribute "href" then some "link" else none
    | "article" => some "article"
    | "aside" => some "complementary"
    | "button" => some "button"
    | "dialog" => some "dialog"
    | "footer" => some "contentinfo"
    | "form" => some "form"
    | "h1" => some "heading"
    | "h2" => some "heading"
    | "h3" => some "heading"
    | "h4" => some "heading"
    | "h5" => some "heading"
    | "h6" => some "heading"
    | "header" => some "banner"
    | "img" => if e.getAttribute "alt" == some "" then some "presentation" else some "img"
    | "input" => some (inputTypeRole (lowerStr ((e.getAttribute "type").getD "text")))
    | "li" => some "listitem"
    | "main" => some "main"
    | "nav" => some "navigation"
    | "ol" => some "list"
    | "section" => if hasAccessibleName root p then some "region" else none
    | "select" => if e.hasAttribute "multiple" then some "listbox" else some "combobox"
    | "table" => some "table"
    | "textarea" => some "textbox"
    | "ul" => some "list"
    | _ => none

/-- Value of a property in the inline `style` attribute, lowercased; `""`
when the property is not declared (models `htmlElement.style.display` etc.). -/
def styleValue (e : Elem) (prop : String) : String :=
  let decls := splitOnChar ((e.getAttribute "style").getD "") (Char.ofNat 59)
  let fnd := decls.reverse.findSome? (fun d =>
    match splitOnChar d (Char.ofNat 58) with
    | k :: v :: rest =>
      if lowerStr (trimStr k) == prop then some (trimStr (String.intercalate ":" (v :: rest))) else none
    | _ => none)
  ((fnd.map lowerStr).getD "")

/-- Class names that `isVisible` (src/common/dom.ts) treats as hidden. -/
def hiddenClassNames : List String :=
  ["hidden", "hide", "d-none", "invisible", "sr-only", "visually-hidden"]

/-- DOM `classList` (whitespace-split class attribute tokens). -/
def classTokens (e : Elem) : List String :=
  splitWhitespace e.className

/-- Translation of `isVisible` (src/common/dom.ts): hidden attribute,
aria-hidden, inline display/visibility styles and common hidden classes. -/
def isVisible (e : Elem) : Bool :=
  if e.hasAttribute "hidden" then false
  else if e.getAttribute "aria-hidden" == some "true" then false
  else if styleValue e "display" == "none" || styleValue e "visibility" == "hidden" then false
  else if hiddenClassNames.any (fun cls => (classTokens e).contains cls) then false
  else true

/-- Translation of `isExplicitlyHidden` (src/common/dom.ts). -/
def isExplicitlyHidden (e : Elem) : Bool :=
  !(isVisible e)

/-- Matches of the focusable-elements selector list of `getFocusableElements`
(src/common/dom.ts). -/
def focusableSelector (e : Elem) : Bool :=
  (e.tag == "a" && e.hasAttribute "href") ||
  (e.tag == "button" && !e.hasAttribute "disabled") ||
  (e.tag == "input" && !e.hasAttribute "disabled") ||
  (e.tag == "select" && !e.hasAttribute "disabled") ||
  (e.tag == "textarea" && !e.hasAttribute "disabled") ||
  (e.hasAttribute "tabindex" && e.getAttribute "tabindex" != some "-1") ||
  (e.getAttribute "contenteditable" == some "true") ||
  (e.tag == "audio" && e.hasAttribute "controls") ||
  (e.tag == "video" && e.hasAttribute "controls") ||
  (e.tag == "details")

/-- Translation of `getFocusableElements` (src/common/dom.ts): all matching
descendants, with no visibility filter. -/
def getFocusableElements (root : Elem) (p : NodePath) : List NodePath :=
  ((descendantPairs root p).filter (fun q => focusableSelector q.2)).map (·.1)

/-- Translation of `findByAttribute` (src/common/dom.ts): all elements of the
document whose attribute has exactly the given value, in document order. -/
def findByAttribute (root : Elem) (attrName value : String) : List NodePath :=
  ((docPairs root).filter (fun q => q.2.getAttribute attrName == some value)).map (·.1)

/-- Severity of an issue (src/core/types.ts). -/
inductive Severity where
  | error
  | warning
  | info
deriving DecidableEq, Repr

/-- Confidence of pattern detection (src/core/types.ts). -/
inductive Confidence where
  | high
  | medium
  | low
deriving DecidableEq, Repr

/-- Method used to detect the pattern (src/core/types.ts). -/
inductive DetectionMethod where
  | explicitRole
  | nativeElement
  | heuristic
deriving DecidableEq, Repr

/-- Issue found during validation (src/core/types.ts). -/
structure Issue where
  severity : Severity
  message : String
  suggestion : Option String
  ruleId : String
  element : Option NodePath
deriving DecidableEq, Repr

/-- Related elements of a dialog pattern (src/patterns/dialog/types.ts). -/
structure RelatedElements where
  triggers : List NodePath
  closeButtons : List NodePath
  backdrop : Option NodePath
  focusableElements : List NodePath
deriving DecidableEq, Repr

/-- Metadata of a dialog pattern (src/patterns/dialog/types.ts). -/
structure PatternMetadata where
  isModal : Bool
  hasBackdrop : Bool
  isAlertDialog : Bool
deriving DecidableEq, Repr

/-- A detected pattern (src/core/types.ts `Pattern`, carrying the related
elements and metadata of its only registered instantiation, the dialog
pattern of src/patterns/dialog/types.ts). -/
structure Pattern where
  type : String
  confidence : Confidence
  detectionMethod : DetectionMethod
  element : NodePath
  relatedElements : RelatedElements
  metadata : PatternMetadata
  issues : List Issue
deriving DecidableEq, Repr

/-- Summary statistics of an analysis (src/core/types.ts). -/
structure Summary where
  patternsFound : Nat
  errors : Nat
  warnings : Nat
  info : Nat
deriving DecidableEq, Repr

/-- Result of an analysis (src/core/types.ts). -/
structure AnalysisResult where
  summary : Summary
  patterns : List Pattern
deriving DecidableEq, Repr

namespace DialogDetector

/-- Translation of `DialogDetector.findTriggers`: elements anywhere in the
document referencing the dialog by `aria-controls` or `data-target`
(with or without a leading hash), deduplicated keeping first occurrences
(the JS `Array.from(new Set(...))`). -/
def findTriggers (root : Elem) (dialog : Elem) : List NodePath :=
  if dialog.idAttr == "" then []
  else
    let ariaControls := findByAttribute root "aria-controls" dialog.idAttr
    let dataTargets :=
      ((docPairs root).filter (fun q =>
        q.2.getAttribute "data-target" == some ("#" ++ dialog.idAttr) ||
        q.2.getAttribute "data-target" == some dialog.idAttr)).map (·.1)
    (ariaControls ++ dataTargets).foldl
      (fun acc p => if acc.contains p then acc else acc ++ [p]) []

/-- Translation of `DialogDetector.findCloseButtons`: descendant buttons (or
role=button elements) of the dialog whose text contains close/dismiss/cancel,
whose aria-label contains close/dismiss, whose class name contains close, or
that carry a data-dismiss or data-close attribute (all lowercased substring
tests, per the JS `includes` calls). -/
def findCloseButtons (root : Elem) (dialogPath : NodePath) : List NodePath :=
  let candidates := (descendantPairs root dialogPath).filter (fun q =>
    q.2.tag == "button" || q.2.getAttribute "role" == some "button")
  (candidates.filter (fun q =>
    let text := lowerStr (textContent q.2)
    let label := ((q.2.getAttribute "aria-label").map lowerStr).getD ""
    let className := lowerStr q.2.className
    strIncludes text "close" ||
    strIncludes text "dismiss" ||
    strIncludes text "cancel" ||
    strIncludes label "close" ||
    strIncludes label "dismiss" ||
    strIncludes className "close" ||
    q.2.hasAttribute "data-dismiss" ||
    q.2.hasAttribute "data-close")).map (·.1)

/-- Translation of `DialogDetector.findBackdrop`: the first sibling of the
dialog (in child order, skipping the dialog itself) whose class name contains
backdrop, overlay or mask. -/
def findBackdrop (root : Elem) (dialogPath : NodePath) : Option NodePath :=
  if dialogPath.isEmpty then none
  else
    let parentPath := dialogPath.dropLast
    let selfIdx := dialogPath.getLastD 0
    match nodeAt root parentPath with
    | none => none
    | some parent =>
      ((parent.children.enum.find? (fun ie =>
        ie.1 != selfIdx &&
        (strIncludes (lowerStr ie.2.className) "backdrop" ||
         strIncludes (lowerStr ie.2.className) "overlay" ||
         strIncludes (lowerStr ie.2.className) "mask"))).map
        (fun ie => parentPath ++ [ie.1]))

/-- Translation of `DialogDetector.createDialogPattern`. -/
def createDialogPattern (root : Elem) (p : NodePath)
    (detectionMethod : DetectionMethod) (confidence : Confidence) : Pattern :=
  let e := elemAt root p
  let role := getRole root p
  let isAlertDialog := role == some "alertdialog"
  let isModal := e.getAttribute "aria-modal" == some "true"
  { type := "dialog"
    confidence := confidence
    detectionMethod := detectionMethod
    element := p
    relatedElements :=
      { triggers := findTriggers root e
        closeButtons := findCloseButtons root p
        backdrop := findBackdrop root p
        focusableElements := getFocusableElements root p }
    metadata :=
      { isModal := isModal
        hasBackdrop := (findBackdrop root p).isSome
        isAlertDialog := isAlertDialog }
    issues := [] }

/-- Translation of `DialogDetector.detectExplicitDialogs`: all elements with
an explicit role attribute of exactly `dialog` or `alertdialog`. -/
def detectExplicitDialogs (root : Elem) : List Pattern :=
  (((docPairs root).filter (fun q =>
    q.2.getAttribute "role" == some "dialog" ||
    q.2.getAttribute "role" == some "alertdialog")).map (·.1)).map
    (fun p => createDialogPattern root p .explicitRole .high)

/-- Translation of `DialogDetector.detectNativeDialogs`: all native `dialog`
elements. -/
def detectNativeDialogs (root : Elem) : List Pattern :=
  (((docPairs root).filter (fun q => q.2.tag == "dialog")).map (·.1)).map
    (fun p => createDialogPattern root p .nativeElement .high)

/-- Translation of `DialogDetector.detectAll`: the explicit-role pass followed
by the native-element pass (the heuristic pass is not implemented). -/
def detectAll (root : Elem) : List Pattern :=
  detectExplicitDialogs root ++ detectNativeDialogs root

end DialogDetector

/-- A dialog validation rule (src/patterns/dialog/types.ts `DialogRule`); the
test additionally receives the document root, which in the TypeScript source
is reached implicitly through the elements' `ownerDocument`. -/
structure DialogRule where
  id : String
  description : String
  severity : Severity
  test : Elem → Pattern → Bool
  message : String
  suggestion : Option String

/-- Translation of `DIALOG_RULES` (src/patterns/dialog/validator.ts): the
ordered APG dialog rule set. -/
def DIALOG_RULES : List DialogRule :=
  [ { id := "dialog-accessible-name"
      description := "Dialog must have an accessible name"
      severity := .error
      test := fun root pattern => hasAccessibleName root pattern.element
      message := "Dialog must have an accessible name"
      suggestion := some "Add aria-label or aria-labelledby attribute to the dialog" },
    { id := "dialog-close-button"
      description := "Dialog should contain a close button"
      severity := .error
      test := fun root pattern => pattern.relatedElements.closeButtons.length > 0
      message := "Dialog should contain a close button"
      suggestion := some "Add a button with aria-label=Close or visible close text" },
    { id := "dialog-initially-hidden"
      description := "Dialog should be hidden initially"
      severity := .warning
      test := fun root pattern => isExplicitlyHidden (elemAt root pattern.element)
      message := "Dialog should be hidden initially"
      suggestion := some "Add hidden attribute or CSS display none" },
    { id := "dialog-focusable-content"
      description := "Dialog must contain focusable elements"
      severity := .error
      test := fun root pattern => pattern.relatedElements.focusableElements.length > 0
      message := "Dialog contains no focusable elements"
      suggestion := some "Add at least one button, link, or input element" },
    { id := "dialog-aria-modal"
      description := "Modal dialogs should have aria-modal true"
      severity := .warning
      test := fun root pattern =>
        if !pattern.metadata.hasBackdrop then true else pattern.metadata.isModal
      message := "Dialog appears to be modal but missing aria-modal true"
      suggestion := some "Add aria-modal true if this dialog is modal" },
    { id := "dialog-close-button-label"
      description := "Close buttons must have accessible names"
      severity := .error
      test := fun root pattern =>
        pattern.relatedElements.closeButtons.all (fun btn => hasAccessibleName root btn)
      message := "Close button must have an accessible name"
      suggestion := some "Add aria-label=Close or visible text to close button" } ]

/-- Issue record pushed by `DialogValidator.validate` when a rule fails. -/
def issueOfRule (rule : DialogRule) (pattern : Pattern) : Issue :=
  { severity := rule.severity
    message := rule.message
    suggestion := rule.suggestion
    ruleId := rule.id
    element := some pattern.element }

/-- The validation loop of `DialogValidator.validate`: every rule is tested
in declaration order and each failing rule pushes its issue. -/
def validateRules : List DialogRule → Elem → Pattern → List Issue
  | [], _, _ => []
  | rule :: rest, root, pattern =>
    (if rule.test root pattern then [] else [issueOfRule rule pattern]) ++
      validateRules rest root pattern

/-- Translation of `DialogValidator.validate` (src/patterns/dialog/validator.ts). -/
def DialogValidator.validate (root : Elem) (pattern : Pattern) : List Issue :=
  validateRules DIALOG_RULES root pattern

/-- Analyzer configuration as supplied by the caller (src/core/types.ts
`AnalyzerConfig`; `none` models an absent field). -/
structure AnalyzerConfig where
  minConfidence : Option Confidence := none
  patterns : Option (List String) := none
  includeSuggestions : Option Bool := none

/-- Analyzer configuration after the defaults applied by the `Analyzer`
constructor (src/core/analyzer.ts lines 16-21). -/
structure ResolvedConfig where
  minConfidence : Confidence
  patterns : List String
  includeSuggestions : Bool

/-- Default resolution of the `Analyzer` constructor: minConfidence falls back
to low, patterns to the empty list, includeSuggestions to true. -/
def resolveConfig (c : AnalyzerConfig) : ResolvedConfig :=
  { minConfidence := c.minConfidence.getD .low
    patterns := c.patterns.getD []
    includeSuggestions := c.includeSuggestions.getD true }

namespace Analyzer

/-- Translation of `Analyzer.shouldAnalyzePattern`: analyze all pattern types
when the configured list is empty, else only listed types. -/
def shouldAnalyzePattern (cfg : ResolvedConfig) (patternType : String) : Bool :=
  cfg.patterns.isEmpty || cfg.patterns.contains patternType

/-- Ordinal of a confidence level (the `confidenceLevels` table of
`Analyzer.filterByConfidence`). -/
def confidenceLevel : Confidence → Nat
  | .high => 3
  | .medium => 2
  | .low => 1

/-- Translation of `Analyzer.filterByConfidence`. -/
def filterByConfidence (cfg : ResolvedConfig) (patterns : List Pattern) : List Pattern :=
  patterns.filter (fun pattern =>
    confidenceLevel pattern.confidence ≥ confidenceLevel cfg.minConfidence)

/-- Issues of severity `s` across all issues of the given patterns (the
counting loops of `Analyzer.calculateSummary` and of
`BrowserRunner.runOnElement`). -/
def countSeverity (patterns : List Pattern) (s : Severity) : Nat :=
  ((patterns.flatMap (·.issues)).filter (fun issue => issue.severity == s)).length

/-- Translation of `Analyzer.calculateSummary`. -/
def calculateSummary (patterns : List Pattern) : Summary :=
  { patternsFound := patterns.length
    errors := countSeverity patterns .error
    warnings := countSeverity patterns .warning
    info := countSeverity patterns .info }

/-- Translation of `Analyzer.analyzeDialogs`: detect all dialogs, populate the
issues of each match by validation, and drop every suggestion when
`includeSuggestions` is false. -/
def analyzeDialogs (root : Elem) (cfg : ResolvedConfig) : List Pattern :=
  (DialogDetector.detectAll root).map (fun dialog =>
    let issues := DialogValidator.validate root dialog
    let issues :=
      if cfg.includeSuggestions then issues
      else issues.map (fun issue => { issue with suggestion := none })
    { dialog with issues := issues })

/-- Translation of `Analyzer.analyze` (src/core/analyzer.ts lines 27-45). -/
def analyze (root : Elem) (c : AnalyzerConfig) : AnalysisResult :=
  let cfg := resolveConfig c
  let patterns := if shouldAnalyzePattern cfg "dialog" then analyzeDialogs root cfg else []
  let filteredPatterns := filterByConfidence cfg patterns
  { summary := calculateSummary filteredPatterns
    patterns := filteredPatterns }

end Analyzer

/-- Per-instance state of a runner: the single-flight `isScanRunning` flag. -/
structure RunnerState where
  isScanRunning : Bool
deriving DecidableEq, Repr

/-- Outcome of the analysis attempted inside a runner's try block: either the
analyzer's result, or an exception escaping the analyzer (the TypeScript
analyzer can throw, e.g. from a rule predicate; the pure model makes the
possibility explicit). -/
abbrev AnalyzeOutcome := Except Unit AnalysisResult

namespace BrowserRunner

/-- Translation of `BrowserRunner.emptyResult`. -/
def emptyResult : AnalysisResult :=
  { summary := { patternsFound := 0, errors := 0, warnings := 0, info := 0 }
    patterns := [] }

/-- Observable outcome of one runner call: the value returned to the caller
(or the exception propagated to it), the runner state after the call, and the
arguments of the `onScanStateChange` invocations made during the call, in
order. -/
abbrev CallOutcome := Except Unit AnalysisResult × RunnerState × List Bool

/-- Translation of `BrowserRunner.run` (src/runner/browser.ts lines 20-53):
the busy guard returns the empty result without any further effect; otherwise
the flag is set, the callback fired with true, the analysis performed (its
outcome given by `out`), any error caught and converted to the empty result,
and the finally block resets the flag and fires the callback with false.  The
minimum-duration delay changes no observable of this model. -/
def runStep (st : RunnerState) (out : AnalyzeOutcome) : CallOutcome :=
  if st.isScanRunning then (.ok emptyResult, st, [])
  else
    match out with
    | .ok result => (.ok result, ⟨false⟩, [true, false])
    | .error _ => (.ok emptyResult, ⟨false⟩, [true, false])

/-- The scoping block of `BrowserRunner.runOnElement` (lines 76-102): filter
the full result's patterns to those contained in the target element (DOM
`element.contains`, i.e. the target's path is a prefix of the pattern's
anchor path) and recompute the summary from the filtered list. -/
def scopeResult (target : NodePath) (fullResult : AnalysisResult) : AnalysisResult :=
  let filteredPatterns := fullResult.patterns.filter
    (fun pattern => target.isPrefixOf pattern.element)
  { summary :=
      { patternsFound := filteredPatterns.length
        errors := Analyzer.countSeverity filteredPatterns .error
        warnings := Analyzer.countSeverity filteredPatterns .warning
        info := Analyzer.countSeverity filteredPatterns .info }
    patterns := filteredPatterns }

/-- Translation of `BrowserRunner.runOnElement` (src/runner/browser.ts lines
58-107): the busy guard as in `run`; otherwise flag set, callback fired with
true, the full analysis run and scoped to the target.  The try block has a
finally but no catch, so an analysis error propagates to the caller after the
finally block resets the flag and fires the callback with false. -/
def runOnElementStep (st : RunnerState) (target : NodePath) (out : AnalyzeOutcome) :
    CallOutcome :=
  if st.isScanRunning then (.ok emptyResult, st, [])
  else
    match out with
    | .ok fullResult => (.ok (scopeResult target fullResult), ⟨false⟩, [true, false])
    | .error e => (.error e, ⟨false⟩, [true, false])

end BrowserRunner

namespace NodeRunner

/-- Translation of `NodeRunner.emptyResult` (src/runner/node.ts). -/
def emptyResult : AnalysisResult :=
  { summary := { patternsFound := 0, errors := 0, warnings := 0, info := 0 }
    patterns := [] }

/-- Observable outcome of one NodeRunner call: returned value, state after
the call, and the `onScanStateChange` invocations made during the call. -/
abbrev CallOutcome := AnalysisResult × RunnerState × List Bool

/-- Translation of `NodeRunner.analyzeHTML` (and, with the fetch included in
the outcome parameter, of `NodeRunner.analyzeURL`): busy guard, flag set,
callback fired with true, analysis attempted, errors caught and converted to
the empty result, finally block resetting the flag and firing false. -/
def analyzeHTMLStep (st : RunnerState) (out : AnalyzeOutcome) : CallOutcome :=
  if st.isScanRunning then (emptyResult, st, [])
  else
    match out with
    | .ok result => (result, ⟨false⟩, [true, false])
    | .error _ => (emptyResult, ⟨false⟩, [true, false])

/-- Translation of `NodeRunner.analyzeFile` (src/runner/node.ts lines
105-134): a bare try/catch with no busy-flag check, no busy-flag update and
no `onScanStateChange` call; errors are caught and converted to the empty
result. -/
def analyzeFileStep (st : RunnerState) (out : AnalyzeOutcome) : CallOutcome :=
  match out with
  | .ok result => (result, st, [])
  | .error _ => (emptyResult, st, [])

end NodeRunner

/-- Modelled from the specification's wording for comparison with
`DialogDetector.findCloseButtons` (claim formalisation, not source code):
interactive descendants (buttons or role=button) of the anchor whose text,
accessible label, or class name matches any word of the closed vocabulary
close / dismiss / cancel, or that carry a dismiss-marker attribute. -/
def specCloseButtons (root : Elem) (dialogPath : NodePath) : List NodePath :=
  let vocabulary := ["close", "dismiss", "cancel"]
  let candidates := (descendantPairs root dialogPath).filter (fun q =>
    q.2.tag == "button" || q.2.getAttribute "role" == some "button")
  (candidates.filter (fun q =>
    vocabulary.any (fun w =>
      strIncludes (lowerStr (textContent q.2)) w ||
      strIncludes (((q.2.getAttribute "aria-label").map lowerStr).getD "") w ||
      strIncludes (lowerStr q.2.className) w) ||
    q.2.hasAttribute "data-dismiss" ||
    q.2.hasAttribute "data-close")).map (·.1)

/-- Fixture: a dialog whose only button is marked as a dismiss control solely
by `aria-label="cancel"` (no matching text, class or marker attribute). -/
def dialogLabelCancelDoc : Elem :=
  .mk "body" [] ""
    [ .mk "div" [("role", "dialog"), ("aria-label", "Confirm")] ""
        [ .mk "button" [("aria-label", "cancel")] "" [] ] ]

/-- Fixture for the validator witness: a document with one explicit dialog. -/
def validatorDoc : Elem :=
  .mk "body" [] ""
    [ .mk "div" [("role", "dialog")] ""
        [ .mk "button" [("class", "close")] "X" [] ] ]

/-- Fixture pattern for the validator witness: the dialog of `validatorDoc`
as the detector produces it. -/
def validatorPattern : Pattern :=
  DialogDetector.createDialogPattern validatorDoc [0] .explicitRole .high

/-- Default rule used only to name the head of `DIALOG_RULES` in witnesses. -/
def trivialRule : DialogRule :=
  { id := "", description := "", severity := .error
    test := fun _ _ => true, message := "", suggestion := none }

lemma countSeverity_eq_sum (patterns : List Pattern) (s : Severity) :
    Analyzer.countSeverity patterns s =
      (patterns.map (fun p => (p.issues.filter (fun i => i.severity == s)).length)).sum := by
  induction patterns with
  | nil => rfl
  | cons p ps ih =>
    unfold Analyzer.countSeverity at ih ⊢
    simp [List.filter_append, ih]

/-- C3: while the busy flag of a Scan Session instance is set, any new run or
runWithin (runOnElement) call on that instance returns the empty all-zero
result immediately, without raising an error. -/
theorem busy_guard_returns_empty (out : AnalyzeOutcome) (target : NodePath) :
    (BrowserRunner.runStep ⟨true⟩ out).1 =
      .ok { summary := { patternsFound := 0, errors := 0, warnings := 0, info := 0 }
            patterns := [] } ∧
    (BrowserRunner.runOnElementStep ⟨true⟩ target out).1 =
      .ok { summary := { patternsFound := 0, errors := 0, warnings := 0, info := 0 }
            patterns := [] } := by
  constructor <;> rfl

/-- C10: a run or runOnElement call rejected by the single-flight guard is a
no-op apart from its return value: the busy flag is left set and the
scan-state-change callback is never invoked. -/
theorem rejected_call_is_noop (out : AnalyzeOutcome) (target : NodePath) :
    (BrowserRunner.runStep ⟨true⟩ out).2 = (⟨true⟩, []) ∧
    (BrowserRunner.runOnElementStep ⟨true⟩ target out).2 = (⟨true⟩, []) := by
  constructor <;> rfl

/-- C4 counterexample: an analyzer error inside runOnElement is not caught at
the Scan Session boundary; at the concrete idle instance and error outcome,
the call propagates the error instead of returning the empty result. -/
theorem runOnElement_error_propagates_cex :
    (BrowserRunner.runOnElementStep ⟨false⟩ [] (.error ())).1 = .error () ∧
    (BrowserRunner.runOnElementStep ⟨false⟩ [] (.error ())).1 ≠
      .ok BrowserRunner.emptyResult := by
  constructor
  · rfl
  · intro h
    simp [BrowserRunner.runOnElementStep] at h

/-- C4 amended: an unrecovered analyzer error is caught and converted to the
empty result by `run`, but `runOnElement` (runWithin) propagates it to the
caller; in both cases the finally block resets the busy flag and fires the
callback with false. -/
theorem run_error_caught_runOnElement_not (target : NodePath) :
    BrowserRunner.runStep ⟨false⟩ (.error ()) =
      (.ok BrowserRunner.emptyResult, ⟨false⟩, [true, false]) ∧
    BrowserRunner.runOnElementStep ⟨false⟩ target (.error ()) =
      (.error (), ⟨false⟩, [true, false]) := by
  constructor <;> rfl

/-- C8 counterexample: a run call issued on a busy instance never invokes the
state-change callback, so the callback is not invoked exactly twice during
every call. -/
theorem state_change_not_always_twice_cex :
    (BrowserRunner.runStep ⟨true⟩ (.ok BrowserRunner.emptyResult)).2.2 = [] ∧
    (BrowserRunner.runStep ⟨true⟩ (.ok BrowserRunner.emptyResult)).2.2.length ≠ 2 := by
  constructor <;> decide

/-- C8 amended: for every run or runOnElement (runWithin) call that passes the
single-flight guard (the instance is idle at entry), the state-change callback
is invoked exactly twice: once with true before the analysis and once with
false after it, including when the analysis fails with an error. -/
theorem state_change_twice_when_not_busy (out : AnalyzeOutcome) (target : NodePath) :
    (BrowserRunner.runStep ⟨false⟩ out).2.2 = [true, false] ∧
    (BrowserRunner.runOnElementStep ⟨false⟩ target out).2.2 = [true, false] := by
  cases out <;> constructor <;> rfl

/-- C9: NodeRunner.analyzeFile bypasses the single-flight discipline: for any
prior state it neither checks nor changes the busy flag, never invokes the
scan-state-change callback, and still returns the full analysis even while
the instance is busy — unlike analyzeHTML, whose guard returns the empty
result on a busy instance. -/
theorem analyzeFile_bypasses_guard (st : RunnerState) (out : AnalyzeOutcome)
    (root : Elem) (c : AnalyzerConfig) :
    (NodeRunner.analyzeFileStep st out).2.1 = st ∧
    (NodeRunner.analyzeFileStep st out).2.2 = [] ∧
    NodeRunner.analyzeFileStep ⟨true⟩ (.ok (Analyzer.analyze root c)) =
      (Analyzer.analyze root c, ⟨true⟩, []) ∧
    NodeRunner.analyzeHTMLStep ⟨true⟩ out = (NodeRunner.emptyResult, ⟨true⟩, []) := by
  refine ⟨?_, ?_, rfl, rfl⟩ <;> cases out <;> rfl

/-- C2: the scoped scan returns exactly those matches of the full analysis
whose anchor element lies in the target's subtree (containment tested on the
anchor only), with the summary recomputed from the filtered subset and
patternsFound equal to the length of the returned pattern list; on an idle
instance runOnElement returns exactly this scoping of the full analysis. -/
theorem runOnElement_scope_spec (target : NodePath) (fullResult : AnalysisResult)
    (root : Elem) (c : AnalyzerConfig) :
    (∀ p : Pattern, p ∈ (BrowserRunner.scopeResult target fullResult).patterns ↔
      p ∈ fullResult.patterns ∧ target.isPrefixOf p.element = true) ∧
    (BrowserRunner.scopeResult target fullResult).summary.patternsFound =
      (BrowserRunner.scopeResult target fullResult).patterns.length ∧
    (BrowserRunner.scopeResult target fullResult).summary.errors =
      ((BrowserRunner.scopeResult target fullResult).patterns.map
        (fun p => (p.issues.filter (fun i => i.severity == Severity.error)).length)).sum ∧
    (BrowserRunner.scopeResult target fullResult).summary.warnings =
      ((BrowserRunner.scopeResult target fullResult).patterns.map
        (fun p => (p.issues.filter (fun i => i.severity == Severity.warning)).length)).sum ∧
    (BrowserRunner.scopeResult target fullResult).summary.info =
      ((BrowserRunner.scopeResult target fullResult).patterns.map
        (fun p => (p.issues.filter (fun i => i.severity == Severity.info)).length)).sum ∧
    BrowserRunner.runOnElementStep ⟨false⟩ target (.ok (Analyzer.analyze root c)) =
      (.ok (BrowserRunner.scopeResult target (Analyzer.analyze root c)), ⟨false⟩,
        [true, false]) := by
  refine ⟨?_, rfl, ?_, ?_, ?_, rfl⟩
  · intro p
    simp [BrowserRunner.scopeResult, List.mem_filter]
  all_goals
    exact countSeverity_eq_sum _ _

/-- C5: for a fixed tree (and fixed enabled types and suggestion flag), the
matches returned with minConfidence high are a subset of those returned with
medium, which are a subset of those returned with low. -/
theorem analyze_confidence_monotone (root : Elem)
    (pats : Option (List String)) (incl : Option Bool) :
    (Analyzer.analyze root ⟨some .high, pats, incl⟩).patterns ⊆
      (Analyzer.analyze root ⟨some .medium, pats, incl⟩).patterns ∧
    (Analyzer.analyze root ⟨some .medium, pats, incl⟩).patterns ⊆
      (Analyzer.analyze root ⟨some .low, pats, incl⟩).patterns := by
  constructor <;>
  · intro x hx
    simp only [Analyzer.analyze, Analyzer.filterByConfidence, resolveConfig,
      Option.getD_some, List.mem_filter, decide_eq_true_eq] at hx ⊢
    refine ⟨hx.1, ?_⟩
    have h2 := hx.2
    simp only [Analyzer.confidenceLevel] at h2 ⊢
    omega

/-- C1: analyze runs the detector and then the validator for each enabled
pattern type, strips every suggestion when includeSuggestions is false,
filters the concatenated matches by the confidence ordinal (low 1, medium 2,
high 3) against minConfidence, and returns a summary whose patternsFound is
the number of surviving matches and whose errors/warnings/info are the counts
of issues of each severity summed over the surviving matches. -/
theorem analyze_pipeline_spec (root : Elem) (c : AnalyzerConfig) :
    (Analyzer.analyze root c).patterns =
      ((if (resolveConfig c).patterns.isEmpty ||
            (resolveConfig c).patterns.contains "dialog" then
          (DialogDetector.detectAll root).map (fun dialog =>
            { dialog with
              issues := (DialogValidator.validate root dialog).map (fun issue =>
                if (resolveConfig c).includeSuggestions then issue
                else { issue with suggestion := none }) })
        else []).filter (fun pattern =>
          Analyzer.confidenceLevel pattern.confidence ≥
            Analyzer.confidenceLevel (resolveConfig c).minConfidence)) ∧
    (Analyzer.analyze root c).summary.patternsFound =
      (Analyzer.analyze root c).patterns.length ∧
    (Analyzer.analyze root c).summary.errors =
      ((Analyzer.analyze root c).patterns.map
        (fun p => (p.issues.filter (fun i => i.severity == Severity.error)).length)).sum ∧
    (Analyzer.analyze root c).summary.warnings =
      ((Analyzer.analyze root c).patterns.map
        (fun p => (p.issues.filter (fun i => i.severity == Severity.warning)).length)).sum ∧
    (Analyzer.analyze root c).summary.info =
      ((Analyzer.analyze root c).patterns.map
        (fun p => (p.issues.filter (fun i => i.severity == Severity.info)).length)).sum ∧
    Analyzer.confidenceLevel .low = 1 ∧
    Analyzer.confidenceLevel .medium = 2 ∧
    Analyzer.confidenceLevel .high = 3 := by
  refine ⟨?_, rfl, countSeverity_eq_sum _ _, countSeverity_eq_sum _ _,
    countSeverity_eq_sum _ _, rfl, rfl, rfl⟩
  by_cases h : (resolveConfig c).includeSuggestions <;>
    simp [Analyzer.analyze, Analyzer.analyzeDialogs, Analyzer.shouldAnalyzePattern,
      Analyzer.filterByConfidence, h]

lemma validateRules_eq (rules : List DialogRule) (root : Elem) (pattern : Pattern) :
    validateRules rules root pattern =
      (rules.filter (fun rule => !(rule.test root pattern))).map
        (fun rule => issueOfRule rule pattern) := by
  induction rules with
  | nil => rfl
  | cons r rs ih =>
    by_cases h : r.test root pattern <;> simp [validateRules, h, ih]

lemma validateRules_ruleId_mem (rules : List DialogRule) (root : Elem)
    (pattern : Pattern) (issue : Issue)
    (h : issue ∈ validateRules rules root pattern) :
    issue.ruleId ∈ rules.map (·.id) := by
  rw [validateRules_eq] at h
  simp only [List.mem_map, List.mem_filter] at h
  obtain ⟨rule, ⟨hmem, _⟩, heq⟩ := h
  exact List.mem_map.mpr ⟨rule, hmem, by rw [← heq]; rfl⟩

lemma validateRules_filter_id (rules : List DialogRule) (root : Elem)
    (pattern : Pattern) (rule : DialogRule) (hmem : rule ∈ rules)
    (hnd : (rules.map (·.id)).Nodup) :
    (validateRules rules root pattern).filter (fun i => i.ruleId == rule.id) =
      if rule.test root pattern then [] else [issueOfRule rule pattern] := by
  induction rules with
  | nil => cases hmem
  | cons r rs ih =>
    rw [List.map_cons, List.nodup_cons] at hnd
    rcases List.mem_cons.mp hmem with heq | hmem2
    · subst heq
      have hnil : (validateRules rs root pattern).filter
          (fun i => i.ruleId == rule.id) = [] := by
        refine List.filter_eq_nil_iff.mpr (fun i hi hbeq => ?_)
        have hmemid := validateRules_ruleId_mem rs root pattern i hi
        rw [eq_of_beq hbeq] at hmemid
        exact hnd.1 hmemid
      by_cases h : rule.test root pattern <;>
        simp [validateRules, List.filter_append, h, hnil, issueOfRule]
    · have hne : (r.id == rule.id) = false := by
        refine beq_eq_false_iff_ne.mpr (fun hid => ?_)
        refine hnd.1 ?_
        rw [hid]
        exact List.mem_map.mpr ⟨rule, hmem2, rfl⟩
      by_cases h : r.test root pattern <;>
        simp [validateRules, List.filter_append, h, issueOfRule, hne,
          ih hmem2 hnd.2]

/-- C6: the Validator evaluates every rule of the dialog rule set with no
short-circuiting, returns issues in rule-declaration order, and produces an
issue for a rule exactly when that rule's predicate is false on the match,
the issue carrying that rule's id, severity, message and suggestion. -/
theorem validator_evaluates_all_rules (root : Elem) (pattern : Pattern) :
    DialogValidator.validate root pattern =
      (DIALOG_RULES.filter (fun rule => !(rule.test root pattern))).map
        (fun rule => issueOfRule rule pattern) ∧
    (∀ rule, rule ∈ DIALOG_RULES →
      (DialogValidator.validate root pattern).filter
          (fun i => i.ruleId == rule.id) =
        if rule.test root pattern then [] else [issueOfRule rule pattern]) := by
  refine ⟨validateRules_eq _ _ _, fun rule hmem =>
    validateRules_filter_id _ _ _ _ hmem ?_⟩
  simp [DIALOG_RULES]

/-- Witness for C6 at the first dialog rule and a concrete dialog match. -/
theorem validator_evaluates_all_rules_witness :
    (DIALOG_RULES.headD trivialRule ∈ DIALOG_RULES) ∧
    ((DialogValidator.validate validatorDoc validatorPattern).filter
        (fun i => i.ruleId == (DIALOG_RULES.headD trivialRule).id) =
      if (DIALOG_RULES.headD trivialRule).test validatorDoc validatorPattern
      then [] else [issueOfRule (DIALOG_RULES.headD trivialRule) validatorPattern]) :=
  ⟨by simp [DIALOG_RULES],
    (validator_evaluates_all_rules validatorDoc validatorPattern).2
      (DIALOG_RULES.headD trivialRule) (by simp [DIALOG_RULES])⟩

/-- C7 counterexample: a descendant button whose only dismiss signal is the
vocabulary word cancel in its accessible label is claimed to qualify (the
specification-side predicate contains it), but `findCloseButtons` does not
return it: the code checks cancel only against the text field. -/
theorem findCloseButtons_label_cancel_cex :
    DialogDetector.findCloseButtons dialogLabelCancelDoc [0] = [] ∧
    specCloseButtons dialogLabelCancelDoc [0] = [[0, 0]] := by
  constructor <;> decide

/-- C7 amended: the dismiss-controls set contains exactly those descendant
buttons or role=button elements of the anchor whose lowercased text contains
close, dismiss or cancel, whose lowercased accessible label contains close or
dismiss, whose lowercased class name contains close (substring tests), or
that carry a data-dismiss or data-close marker attribute. -/
theorem findCloseButtons_characterization (root : Elem) (dialogPath : NodePath)
    (p : NodePath) :
    p ∈ DialogDetector.findCloseButtons root dialogPath ↔
      ∃ e : Elem, (p, e) ∈ descendantPairs root dialogPath ∧
        (e.tag == "button" || e.getAttribute "role" == some "button") = true ∧
        (strIncludes (lowerStr (textContent e)) "close" ||
         strIncludes (lowerStr (textContent e)) "dismiss" ||
         strIncludes (lowerStr (textContent e)) "cancel" ||
         strIncludes (((e.getAttribute "aria-label").map lowerStr).getD "") "close" ||
         strIncludes (((e.getAttribute "aria-label").map lowerStr).getD "") "dismiss" ||
         strIncludes (lowerStr e.className) "close" ||
         e.hasAttribute "data-dismiss" ||
         e.hasAttribute "data-close") = true := by
  simp only [DialogDetector.findCloseButtons, List.mem_map, List.mem_filter]
  constructor
  · rintro ⟨⟨q1, q2⟩, ⟨⟨hmem, hint⟩, hpred⟩, rfl⟩
    exact ⟨q2, hmem, hint, hpred⟩
  · rintro ⟨e, hmem, hint, hpred⟩
    exact ⟨(p, e), ⟨⟨hmem, hint⟩, hpred⟩, rfl⟩
